import Mathlib

/-!
Verification of the quick-resume-gen resume-tailoring pipeline.

The Python sources `app.py`, `generate_resume.py` and `resume_handler.py`
are shallowly embedded below: dictionaries produced by the LLM become
Lean structures, `dict.get(key, default)` on an optional field becomes
`Option.getD`, file-system and network outcomes become explicit data
(`OverrideFile`, `Except`, lists of pending API replies), and `json.loads`
becomes an abstract parse oracle `String → Option Json`.
-/

set_option autoImplicit false

/-- Minimal JSON value universe for data that the pipeline passes through
opaquely (parsed LLM output, the stored `job_info`). -/
inductive Json where
  | str (s : String)
  | num (n : Int)
  | bool (b : Bool)
  | null
  | arr (xs : List Json)
  | obj (fields : List (String × Json))

/-- One experience entry of a structured resume, as the renderers consume it.
The tailoring prompt's schema stores achievements under the key `points`
(`generate_resume.py` lines 191-204); the renderers in `app.py` instead read
the key `bullets`, which the schema never produces, so that key is modelled
as an `Option` that is `none` for schema-conformant data. -/
structure Job where
  title : String
  company : String
  location : String
  dates : String
  points : List String
  bullets : Option (List String)
  deriving DecidableEq, Repr

/-- Value of one skills category: the LLM may deliver a comma-joined string
or a sequence of strings (both shapes accepted, spec section 3). -/
inductive SkillsVal where
  | str (s : String)
  | list (l : List String)
  deriving DecidableEq, Repr

/-- Structured resume record (the tailoring step's output after JSON parse). -/
structure ResumeData where
  name : String
  email : String
  phone : String
  linkedin : String
  location : String
  title : String
  summary : String
  skills : List (String × SkillsVal)
  experience : List Job
  deriving DecidableEq, Repr

/- ------------------------------------------------------------------
Renderers in generate_resume.py
------------------------------------------------------------------ -/

/-- Bullet lines one experience entry contributes to the PDF built by
`generate_resume.generate_pdf` (lines 393-394): one `Paragraph` per element
of `job.get('points', [])`, no cap. -/
def gen_pdf_bullet_lines (job : Job) : List String :=
  job.points.map (fun point => "• " ++ point)

/-- Bullet lines one experience entry contributes to the DOCX built by
`generate_resume.generate_docx` (lines 444-445): one `List Bullet` paragraph
per element of `job['points']`, no cap; the glyph comes from the paragraph
style, so the paragraph text is the point itself. -/
def gen_docx_bullet_lines (job : Job) : List String :=
  job.points.map (fun point => point)

/-- Skills display text in `generate_resume.generate_pdf` (lines 374-383):
a list is joined with `", "`, a string is used directly. -/
def gen_pdf_skills_text : SkillsVal → String
  | .list l => String.intercalate ", " l
  | .str s => s

/-- Skills display text in `generate_resume.generate_docx` (lines 424-433):
a non-empty list whose every element prints with length at most 2 is joined
with no separator (fragmented-string workaround); any other list is joined
with `", "`; a string is used directly via `str`. -/
def gen_docx_skills_text : SkillsVal → String
  | .list l =>
      if !l.isEmpty && l.all (fun s => decide (s.length ≤ 2)) then
        String.join l
      else
        String.intercalate ", " l
  | .str s => s

/- ------------------------------------------------------------------
Renderers in app.py (used by the /api/resume/download route)
------------------------------------------------------------------ -/

/-- Bullet lines one experience entry contributes to the PDF built by
`app.generate_pdf` (lines 290-291): one `Paragraph` per element of
`job.get('bullets', [])[:4]`. -/
def app_pdf_bullet_lines (job : Job) : List String :=
  ((job.bullets.getD []).take 4).map (fun bullet => "• " ++ bullet)

/-- Bullet lines one experience entry contributes to the DOCX built by
`app.generate_docx` (lines 333-334): one paragraph per element of
`job.get('bullets', [])[:4]`. -/
def app_docx_bullet_lines (job : Job) : List String :=
  ((job.bullets.getD []).take 4).map (fun bullet => "• " ++ bullet)

/-- An experience entry carrying six bullet achievements under `points`
and no `bullets` key, as the tailoring schema produces. -/
def sixPointJob : Job :=
  { title := "Senior Software Engineer"
    company := "Galaxy I Tech - Client: Intuit"
    location := "San Jose, CA"
    dates := "Jun 2025 - Present"
    points := ["p1", "p2", "p3", "p4", "p5", "p6"]
    bullets := none }

/- ------------------------------------------------------------------
Theorems for C1, C2, C7
------------------------------------------------------------------ -/

/-- Claim C1, counterexample: the claim says an experience entry with 6
points renders exactly 4 bullet lines in the PDF output of
`generate_resume.generate_pdf` and 6 in the DOCX output; on `sixPointJob`
the PDF renderer emits 6 bullet lines, not 4, so the claim is false. -/
theorem c1_counterexample :
    ¬ ((gen_pdf_bullet_lines sixPointJob).length = 4 ∧
       (gen_docx_bullet_lines sixPointJob).length = 6) := by
  decide

/-- Claim C1, amended: neither renderer in `generate_resume.py` caps bullet
lines per experience entry; each emits exactly one bullet line per element
of the entry's `points`, so an entry with 6 points renders 6 bullet lines in
both the PDF and the DOCX output. -/
theorem c1_no_bullet_cap_in_either_renderer (job : Job) :
    (gen_pdf_bullet_lines job).length = job.points.length ∧
    (gen_docx_bullet_lines job).length = job.points.length := by
  constructor <;> simp [gen_pdf_bullet_lines, gen_docx_bullet_lines]

/-- Claim C2: when every experience entry of a structured resume stores its
achievements under `points` and carries no `bullets` key (as the tailoring
prompt's schema dictates), the `app.py` download renderers, which read the
key `bullets`, emit zero bullet lines for every entry, in both the PDF and
the DOCX documents. -/
theorem c2_app_renderers_read_wrong_key (r : ResumeData)
    (h : ∀ job ∈ r.experience, job.bullets = none) :
    ∀ job ∈ r.experience,
      app_pdf_bullet_lines job = [] ∧ app_docx_bullet_lines job = [] := by
  intro job hj
  have hb := h job hj
  constructor <;> simp [app_pdf_bullet_lines, app_docx_bullet_lines, hb]

/-- Structured resume whose single experience entry has six `points` and no
`bullets` key. -/
def schemaResume : ResumeData :=
  { name := "Muhammad Kasim Naina Mohammed"
    email := "mohammedmazhermd@gmail.com"
    phone := "(510) 771-4493"
    linkedin := ""
    location := "San Jose, CA"
    title := "Senior Software Engineer"
    summary := "Seasoned engineer."
    skills := [("Languages", SkillsVal.str "Java, Python")]
    experience := [sixPointJob] }

/-- Witness for C2: on `schemaResume`, whose only entry `sixPointJob` has
six points under `points` and no `bullets` key, both download renderers
emit no bullet lines for that entry. -/
theorem c2_witness :
    app_pdf_bullet_lines sixPointJob = [] ∧
    app_docx_bullet_lines sixPointJob = [] :=
  c2_app_renderers_read_wrong_key schemaResume (by decide) sixPointJob (by decide)

/-- Claim C7: for a skills category holding a sequence of strings, the PDF
renderer of `generate_resume.py` joins with `", "` unconditionally, while
the DOCX renderer concatenates with no separator exactly when every element
has length at most 2 (for the empty sequence both joins coincide on the
empty string) and otherwise also joins with `", "`. -/
theorem c7_skills_coercion (l : List String) :
    gen_pdf_skills_text (.list l) = String.intercalate ", " l ∧
    gen_docx_skills_text (.list l) =
      (if l.all (fun s => decide (s.length ≤ 2)) then String.join l
       else String.intercalate ", " l) := by
  refine ⟨rfl, ?_⟩
  cases l with
  | nil => rfl
  | cons a as => rfl

/- ------------------------------------------------------------------
Context assembler: generate_resume.load_resume (lines 67-171)
------------------------------------------------------------------ -/

/-- Python `f"{x}"` on a value read with `dict.get(key)`: a missing key
yields `None`, which an f-string prints as `"None"`. -/
def pyOptStr (o : Option String) : String := o.getD "None"

/-- One client record inside `current_experience.clients`; `name` and
`dates` are indexed directly (`client['name']`, `client['dates']`), `title`
and `points` are read with `get` and a default. -/
structure Client where
  name : String
  title : Option String
  dates : String
  points : List String
  deriving DecidableEq, Repr

/-- The `current_experience` object of `current_role.json`; every field is
read with `dict.get`, so each is optional. -/
structure CurrentExperience where
  company : Option String
  type_ : Option String
  location : Option String
  dates : Option String
  clients : List Client
  deriving DecidableEq, Repr

/-- One value of the `missing_experience` mapping; fields mirror the `get`
calls with their defaults (`company` defaults to the entry's key, so it
stays optional here; empty `technologies` and the absent key are both falsy
in Python and are identified). -/
structure MissingDetails where
  role_type : String
  company : Option String
  title : String
  location : String
  dates : String
  technologies : List String
  points : List String
  deriving DecidableEq, Repr

/-- The optional `coe` object of an `experience_restructure` value. -/
structure CoE where
  role : String
  points : List String
  deriving DecidableEq, Repr

/-- One value of the `experience_restructure` mapping. -/
structure RestructureDetails where
  dates : String
  type_ : String
  clients : List String
  coe : Option CoE
  deriving DecidableEq, Repr

/-- Parsed content of `current_role.json`. Python dicts preserve insertion
order, so mappings are association lists; `current.get(key, {})` followed by
a truthiness test makes an absent and an empty mapping equivalent, so the
empty list models both. `role_selection` is only tested for truthiness. -/
structure CurrentConfig where
  current_experience : Option CurrentExperience
  role_selection : Bool
  missing_experience : List (String × MissingDetails)
  experience_restructure : List (String × RestructureDetails)
  date_corrections : List (String × String)
  deriving DecidableEq, Repr

/-- Outcome of looking for the override configuration file: absent, present
but raising during `open`/`json.load`, or parsed successfully. -/
inductive OverrideFile where
  | missing
  | unreadable
  | config (c : CurrentConfig)
  deriving Repr

/-- Text block for one client (`generate_resume.py` lines 97-101). -/
def clientText (c : Client) : String :=
  "Client: " ++ c.name ++ "\nTitle: " ++ c.title.getD "Senior Software Engineer"
    ++ "\nDates: " ++ c.dates ++ "\n"
    ++ String.join (c.points.map (fun point => "• " ++ point ++ "\n"))
    ++ "\n"

/-- Fixed guidance appended when `role_selection` is truthy (lines 104-110). -/
def roleSelectionGuidance : String :=
  "\nROLE SELECTION GUIDANCE:\n"
    ++ "- For Software Engineer positions: Show ONLY the Intuit client experience AND PayPal_SWE experience\n"
    ++ "- For QA/SDET/Test/Quality Engineer positions: Show ONLY the Apple client experience AND PayPal_QE experience\n"
    ++ "- Include only ONE version of each company based on the job title being applied for\n"
    ++ "- PayPal experience should show the role matching the job type (SWE or QE)\n"

/-- Current-role block prepended to the resume context (lines 93-112). -/
def currentRoleText (exp : CurrentExperience) (roleSelection : Bool) : String :=
  "\n\nCURRENT ROLE at " ++ pyOptStr exp.company ++ " ("
    ++ exp.type_.getD "Contract" ++ "):\n"
    ++ "Location: " ++ pyOptStr exp.location ++ "\nDates: " ++ pyOptStr exp.dates ++ "\n\n"
    ++ String.join (exp.clients.map clientText)
    ++ (if roleSelection then roleSelectionGuidance else "")

/-- Text block for one `missing_experience` entry (lines 121-140). -/
def missingDetailText (name : String) (d : MissingDetails) : String :=
  (if d.role_type ≠ "" then "\n[USE FOR " ++ d.role_type.toUpper ++ " ROLES]\n" else "")
    ++ (d.company.getD name) ++ "\n"
    ++ "Title: " ++ d.title ++ "\n"
    ++ "Location: " ++ d.location ++ "\n"
    ++ "Dates: " ++ d.dates ++ "\n"
    ++ (if d.technologies ≠ [] then
          "Technologies: " ++ String.intercalate ", " d.technologies ++ "\n"
        else "")
    ++ "Achievements:\n"
    ++ String.join (d.points.map (fun point => "• " ++ point ++ "\n"))

/-- Loop over the `missing_experience` entries threading the
`added_companies` set. The source tests membership and skips duplicates,
but the line adding a company to the set is commented out (line 143), so
the set never grows past its initial empty value. -/
def missingEntriesText : List (String × MissingDetails) → List String → String
  | [], _ => ""
  | (name, d) :: rest, added =>
      let company_base := d.company.getD name
      if company_base ∈ added then missingEntriesText rest added
      else missingDetailText name d ++ missingEntriesText rest added

/-- Missing-experience block prepended to the resume context (lines 117-145). -/
def missingText (entries : List (String × MissingDetails)) : String :=
  "\n\nMISSING EXPERIENCE (MUST include in resume - insert in correct chronological order):\n"
    ++ missingEntriesText entries []

/-- Text for the optional `coe` object of a restructure entry (lines 154-157). -/
def coeText (c : CoE) : String :=
  "CoE Role: " ++ c.role ++ "\n"
    ++ String.join (c.points.map (fun point => "• " ++ point ++ "\n"))

/-- Text block for one `experience_restructure` entry (lines 151-157). -/
def restructureEntryText (company : String) (d : RestructureDetails) : String :=
  "\n" ++ company ++ " (" ++ d.dates ++ ") - " ++ d.type_ ++ "\n"
    ++ "Clients: " ++ String.intercalate ", " d.clients ++ "\n"
    ++ (match d.coe with
        | some c => coeText c
        | none => "")

/-- Experience-restructure block prepended to the resume context (lines 148-158). -/
def restructureText (entries : List (String × RestructureDetails)) : String :=
  "\n\nEXPERIENCE RESTRUCTURE (show these as contract roles under parent company):\n"
    ++ String.join (entries.map (fun e => restructureEntryText e.1 e.2))

/-- Date-corrections block prepended to the resume context (lines 161-166). -/
def correctionsText (entries : List (String × String)) : String :=
  "\n\nDATE CORRECTIONS (use these dates instead):\n"
    ++ String.join (entries.map (fun e => "- " ++ e.1 ++ ": " ++ e.2 ++ "\n"))

/-- `generate_resume.load_resume` (lines 67-171). `base` is the text the
`ResumeHandler` collaborator returned (`none` when it had no resume, which
the source maps to `""`). The whole body sits inside one `try`; an
exception while opening or parsing the override file reaches the
`except` clause, which returns `None`. Each present and truthy override
sub-section is prepended to the accumulating text in source order:
current role, then missing experience, then restructure, then date
corrections. -/
def load_resume (base : Option String) (ov : OverrideFile) : Option String :=
  match ov with
  | .unreadable => none
  | .missing => some (base.getD "")
  | .config c =>
      let rc0 := base.getD ""
      let rc1 :=
        match c.current_experience with
        | some exp => currentRoleText exp c.role_selection ++ rc0
        | none => rc0
      let rc2 :=
        if c.missing_experience.isEmpty then rc1
        else missingText c.missing_experience ++ rc1
      let rc3 :=
        if c.experience_restructure.isEmpty then rc2
        else restructureText c.experience_restructure ++ rc2
      let rc4 :=
        if c.date_corrections.isEmpty then rc3
        else correctionsText c.date_corrections ++ rc3
      some rc4

/-- Helper: a string with a non-empty left part of an append is non-empty. -/
theorem append_length_pos (a b : String) (h : 0 < a.length) :
    0 < (a ++ b).length := by
  rw [String.length_append]
  omega

/-- Claim C4, counterexample: the claim says any error raised while loading
or parsing the override configuration degrades to the base resume text with
no override sections; with base text `"BASE RESUME"` and an unreadable
override file, `load_resume` instead returns `none` (the whole load fails). -/
theorem c4_counterexample :
    load_resume (some "BASE RESUME") OverrideFile.unreadable ≠ some "BASE RESUME" ∧
    load_resume (some "BASE RESUME") OverrideFile.unreadable = none := by
  constructor
  · intro h
    simp [load_resume] at h
  · rfl

/-- Claim C4, amended: a missing override configuration file degrades
gracefully to the base resume text with no override sections, but an error
raised while opening or parsing the override file makes the whole load fail
with the explicit `None` result; an absent base resume (with no override
file) is reported as the explicit empty string. -/
theorem c4_override_error_semantics (base : Option String) :
    load_resume base OverrideFile.missing = some (base.getD "") ∧
    load_resume base OverrideFile.unreadable = none ∧
    load_resume none OverrideFile.missing = some "" := by
  exact ⟨rfl, rfl, rfl⟩

/-- Claim C5: with a base resume and all four override sub-sections present,
the assembled context is exactly the date-corrections block, then the
restructure block, then the missing-experience block, then the current-role
block, then the base resume text, and each block is non-empty, so each
block's text occurs strictly before the next. -/
theorem c5_override_order (base : String) (c : CurrentConfig)
    (exp : CurrentExperience)
    (hexp : c.current_experience = some exp)
    (hm : c.missing_experience ≠ [])
    (hr : c.experience_restructure ≠ [])
    (hd : c.date_corrections ≠ []) :
    load_resume (some base) (OverrideFile.config c)
      = some (correctionsText c.date_corrections
          ++ (restructureText c.experience_restructure
          ++ (missingText c.missing_experience
          ++ (currentRoleText exp c.role_selection ++ base)))) ∧
    0 < (correctionsText c.date_corrections).length ∧
    0 < (restructureText c.experience_restructure).length ∧
    0 < (missingText c.missing_experience).length ∧
    0 < (currentRoleText exp c.role_selection).length := by
  have h1 : c.missing_experience.isEmpty = false := by
    simp [List.isEmpty_iff, hm]
  have h2 : c.experience_restructure.isEmpty = false := by
    simp [List.isEmpty_iff, hr]
  have h3 : c.date_corrections.isEmpty = false := by
    simp [List.isEmpty_iff, hd]
  refine ⟨?_, ?_, ?_, ?_, ?_⟩
  · simp [load_resume, hexp, h1, h2, h3]
  · unfold correctionsText
    apply append_length_pos
    decide
  · unfold restructureText
    apply append_length_pos
    decide
  · unfold missingText
    apply append_length_pos
    decide
  · unfold currentRoleText
    repeat' apply append_length_pos
    decide

/-- Current-role override used by the C5 witness. -/
def expFull : CurrentExperience :=
  { company := some "Galaxy I Tech"
    type_ := some "Contract"
    location := some "San Jose, CA"
    dates := some "Jun 2025 - Present"
    clients := [{ name := "Intuit"
                  title := none
                  dates := "Jun 2025 - Present"
                  points := ["Built payment microservices"] }] }

/-- Override configuration with all four sub-sections present, used by the
C5 witness. -/
def cfgFull : CurrentConfig :=
  { current_experience := some expFull
    role_selection := true
    missing_experience :=
      [("PayPal_SWE",
        { role_type := "swe"
          company := some "Altimetrik - PayPal"
          title := "Senior Software Engineer"
          location := "San Jose, CA"
          dates := "Mar 2020 - Aug 2021"
          technologies := ["Java", "Kafka"]
          points := ["Scaled checkout services"] })]
    experience_restructure :=
      [("Altimetrik",
        { dates := "Jan 2014 - Aug 2021"
          type_ := "Contract"
          clients := ["PayPal", "Intuit", "Ancestry"]
          coe := some { role := "Lead", points := ["Led the CoE"] } })]
    date_corrections := [("Amazon", "Sep 2022 - Oct 2023")] }

/-- Witness for C5: on `cfgFull` with base text `"BASE"`, the assembled
context decomposes in the claimed order with every block non-empty. -/
theorem c5_witness :
    cfgFull.current_experience = some expFull ∧
    cfgFull.missing_experience ≠ [] ∧
    cfgFull.experience_restructure ≠ [] ∧
    cfgFull.date_corrections ≠ [] ∧
    (load_resume (some "BASE") (OverrideFile.config cfgFull)
      = some (correctionsText cfgFull.date_corrections
          ++ (restructureText cfgFull.experience_restructure
          ++ (missingText cfgFull.missing_experience
          ++ (currentRoleText expFull cfgFull.role_selection ++ "BASE")))) ∧
     0 < (correctionsText cfgFull.date_corrections).length ∧
     0 < (restructureText cfgFull.experience_restructure).length ∧
     0 < (missingText cfgFull.missing_experience).length ∧
     0 < (currentRoleText expFull cfgFull.role_selection).length) :=
  ⟨rfl, by decide, by decide, by decide,
   c5_override_order "BASE" cfgFull expFull rfl (by decide) (by decide) (by decide)⟩

/- ------------------------------------------------------------------
Job Info Extractor: app.call_llm (lines 76-88) and
app.extract_job_info (lines 90-113)
------------------------------------------------------------------ -/

/-- Left curly brace, code point 123. -/
def lbrace : Char := Char.ofNat 123

/-- Right curly brace, code point 125. -/
def rbrace : Char := Char.ofNat 125

/-- Substring matched by the greedy multi-line search for a brace-delimited
span (`re.search` of a left brace, any characters, a right brace, with
`re.DOTALL`, at `app.py` line 108): the leftmost match starts at the first
left brace and, the inner pattern being greedy, ends at the last right
brace; there is a match exactly when some right brace follows the first
left brace. -/
def braceSpan (s : String) : Option String :=
  let cs := s.data
  let i := cs.findIdx (fun c => c = lbrace)
  let j := cs.length - 1 - (cs.reverse.findIdx (fun c => c = rbrace))
  if lbrace ∈ cs ∧ rbrace ∈ cs ∧ i ≤ j then
    some (String.mk ((cs.drop i).take (j - i + 1)))
  else
    none

/-- The hard-coded fallback record of `app.extract_job_info` (line 113). -/
def fallbackJobInfo : Json :=
  Json.obj
    [("job_title", Json.str "Software Engineer"),
     ("company", Json.str "Company"),
     ("location", Json.str "Remote"),
     ("job_type", Json.str "hybrid"),
     ("key_skills", Json.arr [])]

/-- `app.extract_job_info` (lines 90-113). The LLM transport is modelled by
its outcome: `Except.error` when `call_llm` raises (timeout, transport or
HTTP error — `requests.post` and `raise_for_status` at lines 86-87 are not
wrapped in any `try` inside the extractor, so the exception propagates),
`Except.ok` with the response text otherwise. `parse` models `json.loads`,
returning `none` where the library raises. Only the brace search and the
parse sit inside the `try`/bare-`except`; a missing match or a parse
failure falls through to the fallback record. -/
def extract_job_info (parse : String → Option Json)
    (callResult : Except String String) : Except String Json :=
  match callResult with
  | .error e => .error e
  | .ok result =>
      .ok (match braceSpan result with
           | some sub =>
               match parse sub with
               | some j => j
               | none => fallbackJobInfo
           | none => fallbackJobInfo)

/-- Claim C3, counterexample: the claim says the extractor never raises and
absorbs a transport or timeout failure of the LLM call by falling back to
the default JobInfo; when `call_llm` raises (modelled by the `Except.error`
outcome), `extract_job_info` propagates that error instead of returning the
fallback record. -/
theorem c3_counterexample :
    extract_job_info (fun _ => none) (Except.error "ReadTimeout")
      = Except.error "ReadTimeout" := by
  rfl

/-- Claim C3, amended: given a successful LLM response the extractor never
raises and always returns a JobInfo record (falling back to the default on
any parse failure), but a transport or timeout failure of the underlying
LLM call is not absorbed by the extractor: the exception propagates to its
caller (the route handler), because the `call_llm` invocation sits outside
the extractor's `try` block. -/
theorem c3_extractor_error_semantics :
    (∀ (parse : String → Option Json) (s : String),
      ∃ j, extract_job_info parse (Except.ok s) = Except.ok j) ∧
    (∀ (parse : String → Option Json) (e : String),
      extract_job_info parse (Except.error e) = Except.error e) := by
  constructor
  · intro parse s
    exact ⟨_, rfl⟩
  · intro parse e
    rfl

/-- Claim C6: whenever the brace-delimited substring of the LLM response
(first left brace to last right brace, greedy across lines) is absent or
fails to parse as JSON — in particular for responses containing no braces
at all — the extractor returns exactly the hard-coded fallback record. -/
theorem c6_extractor_fallback (parse : String → Option Json) (s : String)
    (h : (braceSpan s).bind parse = none) :
    extract_job_info parse (Except.ok s) = Except.ok fallbackJobInfo := by
  cases hb : braceSpan s with
  | none => simp [extract_job_info, hb]
  | some sub =>
      rw [hb, Option.some_bind] at h
      simp [extract_job_info, hb, h]

/-- Witness for C6: with a parse oracle that rejects everything and a
response with no braces at all, the extractor returns the fallback record. -/
theorem c6_witness :
    ((braceSpan "Sure! Here is the info you asked for.").bind (fun _ => none)
       = (none : Option Json)) ∧
    extract_job_info (fun _ => none)
        (Except.ok "Sure! Here is the info you asked for.")
      = Except.ok fallbackJobInfo :=
  ⟨rfl, c6_extractor_fallback (fun _ => none)
    "Sure! Here is the info you asked for." rfl⟩

/- ------------------------------------------------------------------
Resume Tailoring Requestor: generate_resume.get_structured_resume
(lines 299-325)
------------------------------------------------------------------ -/

/-- JSON body of one chat-completions API reply, reduced to the two keys
the requestor inspects: `error` (its value, when the key is present) and
the message content reachable through `choices[0].message.content` (when
the `choices` key is present). -/
structure LLMApiResult where
  error : Option String
  choices : Option String

/-- Result handling of `get_structured_resume` (lines 301-325): an `error`
key yields `None` (logged, no retry); otherwise a `choices` key has its
message content parsed as JSON, a parse failure yielding `None` and a parse
success being returned as-is with no further schema validation; a reply
with neither key yields `None`. -/
def tailorParse (parse : String → Option Json) (result : LLMApiResult) :
    Option Json :=
  match result.error with
  | some _ => none
  | none =>
      match result.choices with
      | some content => parse content
      | none => none

/-- `get_structured_resume`'s single `requests.post` (line 299), with the
backend modelled as the queue of replies it would return to successive
calls: the function consumes exactly the first reply and leaves the rest,
which makes the single-attempt, no-retry behaviour a provable statement. -/
def get_structured_resume (parse : String → Option Json) :
    List LLMApiResult → Option Json × List LLMApiResult
  | [] => (none, [])
  | r :: rest => (tailorParse parse r, rest)

/-- Claim C8: the tailoring requestor returns null on a reply carrying an
error indicator, returns the JSON parse of the message content otherwise (so
a parse failure yields null and a parse success is returned with no schema
validation beyond parseability), and consumes exactly one backend reply per
request — no retry. -/
theorem c8_tailoring_result_handling (parse : String → Option Json)
    (r : LLMApiResult) (rest : List LLMApiResult) :
    (get_structured_resume parse (r :: rest)).2 = rest ∧
    (∀ m, r.error = some m →
      (get_structured_resume parse (r :: rest)).1 = none) ∧
    (r.error = none → ∀ content, r.choices = some content →
      (get_structured_resume parse (r :: rest)).1 = parse content) := by
  refine ⟨rfl, ?_, ?_⟩
  · intro m hm
    simp [get_structured_resume, tailorParse, hm]
  · intro he content hc
    simp [get_structured_resume, tailorParse, he, hc]

/-- Parse oracle for the C8 witness: accepts everything as an empty object. -/
def acceptAllParse : String → Option Json := fun _ => some (Json.obj [])

/-- Backend reply carrying an error indicator. -/
def errReply : LLMApiResult := { error := some "rate limit", choices := none }

/-- Backend reply carrying a message content and no error. -/
def okReply : LLMApiResult := { error := none, choices := some "json content" }

/-- Witness for C8: on an error reply the result is null, a successful
reply returns the parsed content, and in both runs exactly the first queued
reply is consumed. -/
theorem c8_witness :
    (get_structured_resume acceptAllParse [errReply]).1 = none ∧
    (get_structured_resume acceptAllParse [okReply, errReply]).2 = [errReply] ∧
    (get_structured_resume acceptAllParse [okReply]).1
      = acceptAllParse "json content" :=
  ⟨(c8_tailoring_result_handling acceptAllParse errReply []).2.1 "rate limit" rfl,
   (c8_tailoring_result_handling acceptAllParse okReply [errReply]).1,
   (c8_tailoring_result_handling acceptAllParse okReply []).2.2 rfl "json content" rfl⟩

/- ------------------------------------------------------------------
Profile injection: app.USER_PROFILE (lines 38-44) and
app.generate_resume_data (lines 167-200)
------------------------------------------------------------------ -/

/-- Fixed, process-wide user profile constant (`app.py` lines 38-44). -/
structure UserProfile where
  name : String
  email : String
  phone : String
  linkedin : String
  location : String
  deriving DecidableEq, Repr

/-- The `USER_PROFILE` constant of `app.py`. -/
def USER_PROFILE : UserProfile :=
  { name := "Muhammad Kasim Naina Mohammed"
    email := "mohammedmazhermd@gmail.com"
    phone := "(510) 771-4493"
    linkedin := "https://www.linkedin.com/in/muhammad-kasim-0b297416/"
    location := "San Jose, CA" }

/-- Post-processing of `app.generate_resume_data` (lines 186-195) on the
tailoring outcome: a truthy structured resume has its five contact fields
overwritten with `USER_PROFILE` and is returned; a null outcome returns
null. -/
def generate_resume_data (tailored : Option ResumeData) : Option ResumeData :=
  match tailored with
  | some data =>
      some { data with
              name := USER_PROFILE.name
              email := USER_PROFILE.email
              phone := USER_PROFILE.phone
              linkedin := USER_PROFILE.linkedin
              location := USER_PROFILE.location }
  | none => none

/-- Claim C9: whenever tailoring produces a non-null structured resume, the
resume returned to the caller carries exactly the `USER_PROFILE` contact
fields, regardless of the contact values the LLM produced. -/
theorem c9_profile_injection (tailored : Option ResumeData) (r : ResumeData)
    (h : generate_resume_data tailored = some r) :
    r.name = USER_PROFILE.name ∧
    r.email = USER_PROFILE.email ∧
    r.phone = USER_PROFILE.phone ∧
    r.linkedin = USER_PROFILE.linkedin ∧
    r.location = USER_PROFILE.location := by
  cases tailored with
  | none => simp [generate_resume_data] at h
  | some data =>
      simp only [generate_resume_data, Option.some.injEq] at h
      subst h
      exact ⟨rfl, rfl, rfl, rfl, rfl⟩

/-- Structured resume whose contact fields the LLM corrupted, used by the
C9 witness. -/
def corruptedResume : ResumeData :=
  { schemaResume with
      name := "Somebody Else"
      email := "attacker@example.com"
      phone := "(000) 000-0000"
      linkedin := "https://example.com/fake"
      location := "Nowhere" }

/-- The C9 witness's expected output: `corruptedResume` with the contact
fields overwritten by `USER_PROFILE`. -/
def injectedResume : ResumeData :=
  { corruptedResume with
      name := USER_PROFILE.name
      email := USER_PROFILE.email
      phone := USER_PROFILE.phone
      linkedin := USER_PROFILE.linkedin
      location := USER_PROFILE.location }

/-- Witness for C9: the corrupted resume comes back with every contact
field equal to the `USER_PROFILE` value. -/
theorem c9_witness :
    generate_resume_data (some corruptedResume) = some injectedResume ∧
    (injectedResume.name = USER_PROFILE.name ∧
     injectedResume.email = USER_PROFILE.email ∧
     injectedResume.phone = USER_PROFILE.phone ∧
     injectedResume.linkedin = USER_PROFILE.linkedin ∧
     injectedResume.location = USER_PROFILE.location) :=
  ⟨rfl, c9_profile_injection (some corruptedResume) injectedResume rfl⟩

/- ------------------------------------------------------------------
Session store: app.save_session (lines 24-28), the /api/generate route
(lines 130-165) and /api/resume/download (lines 227-250)
------------------------------------------------------------------ -/

/-- Content of the `last_session.json` file written by `save_session`:
the tailoring outcome (possibly null), the extracted job info and the raw
job description. -/
structure SessionData where
  resume : Option ResumeData
  job_info : Json
  jd : String

/-- The generate route's session write (lines 146-151): once the tailoring
step has run, `save_session` unconditionally overwrites the stored session
file with the new record, whatever the previous store held and whatever the
tailoring outcome was. -/
def generate_save (_prev : Option SessionData) (resume_data : Option ResumeData)
    (job_info : Json) (jd : String) : Option SessionData :=
  some { resume := resume_data, job_info := job_info, jd := jd }

/-- The download route's session read (lines 233-237): a missing session
file or a falsy `resume` value yields the explicit error, otherwise the
stored resume is rendered. -/
def download_resume (store : Option SessionData) : Except String ResumeData :=
  match store with
  | none => .error "No resume generated yet. Please generate first!"
  | some session =>
      match session.resume with
      | none => .error "No resume generated yet. Please generate first!"
      | some r => .ok r

/-- Claim C10: a generation request that reaches the tailoring step
overwrites the stored session regardless of the tailoring outcome; when
tailoring returns null the stored resume becomes null — for every previous
store, including one holding a successfully generated resume — so a
subsequent download fails with the "No resume generated yet" error rather
than serving the earlier resume. -/
theorem c10_session_overwritten_on_null (prev : Option SessionData)
    (job_info : Json) (jd : String) :
    generate_save prev none job_info jd
      = some { resume := none, job_info := job_info, jd := jd } ∧
    download_resume (generate_save prev none job_info jd)
      = .error "No resume generated yet. Please generate first!" := by
  exact ⟨rfl, rfl⟩
